import Mathlib

/-!
# Shallow embedding of the Chilepay Node.js SDK (`src/lib/chilepay-sdk.js`)

The SDK is a thin client class `Chilepay` around Node's `https`, `crypto`,
and `querystring` modules.  We embed:

* JavaScript values (`JSVal`) with `typeof` and truthiness, as needed by the
  argument checks of `initTransaction` and the `params || {}` defaulting in
  `_request`;
* the credential-holding class (`Chilepay`, `chilepayNew` for the
  constructor);
* `JSON.stringify`, `querystring.stringify` and base64 / base64url encoding
  (the library functions the SDK calls);
* `_jwtCreate` / `_base64UrlEncode` (the hand-rolled JWT), with the
  HMAC-SHA256 digest abstracted as a function `String → String → List Nat`
  (key, message ↦ digest bytes) supplied by the environment — no claim
  depends on actual digest values, only on how the digest is encoded;
* `_request`, split into the pure request assembly (`buildRequest`, what is
  sent) and the response settlement (`settleRequest`, how the promise
  resolves), with wall-clock time supplied by the environment (`Env.now`,
  the integer value of `Date.now() / 1000`; the claims proved here do not
  depend on the fractional part);
* all public methods (`initTransaction`, `getTransaction`, `initAuth`,
  `getAccount`, `getFees`, `get`/`post`/`put`/`delete`), each producing a
  `CallResult`: a synchronous throw, a rejected promise issued without any
  network activity, or an issued network request.
-/

/-- A JavaScript value, as far as the SDK inspects values: `undefined`,
`null`, booleans, numbers (modelled as integers; no claim depends on
non-integral numbers), strings, arrays and plain objects (ordered field
lists). -/
inductive JSVal where
  | undefined
  | null
  | bool (b : Bool)
  | num (n : Int)
  | str (s : String)
  | arr (elems : List JSVal)
  | obj (fields : List (String × JSVal))

/-- JavaScript's `typeof` operator on `JSVal` (note `typeof null` is
`"object"`). -/
def typeofJS : JSVal → String
  | .undefined => "undefined"
  | .null => "object"
  | .bool _ => "boolean"
  | .num _ => "number"
  | .str _ => "string"
  | .arr _ => "object"
  | .obj _ => "object"

/-- JavaScript truthiness of a `JSVal` (as used by `params || {}` and
`queryString ? … : …`). -/
def truthy : JSVal → Bool
  | .undefined => false
  | .null => false
  | .bool b => b
  | .num n => n != 0
  | .str s => !s.isEmpty
  | .arr _ => true
  | .obj _ => true

/-- `v || {}` as executed on `params` at the top of `_request`. -/
def jsOrEmptyObj (v : JSVal) : JSVal :=
  if truthy v then v else .obj []

/-- The string a guarded value is known to be (`provider` after the
`typeof provider === 'string'` check); defaults to `""` off the guard. -/
def strVal : JSVal → String
  | .str s => s
  | _ => ""

/-- The client's state: the two credentials stored by the constructor
(`this.apiKey`, `this.secretKey`). -/
structure Chilepay where
  apiKey : String
  secretKey : String

/-- Truthiness of an optional string argument: an absent argument
(`undefined`) and the empty string are the falsy cases. -/
def optStrTruthy : Option String → Bool
  | none => false
  | some s => !s.isEmpty

/-- The constructor `new Chilepay(apiKey, secretKey)`: throws
`'apiKey and/or secretKey are missing'` when either credential is absent or
empty (JavaScript `!apiKey || !secretKey`), otherwise stores both.  It is a
pure function: no request value is produced, so no network activity can
occur during construction. -/
def chilepayNew (apiKey secretKey : Option String) : Except String Chilepay :=
  if !optStrTruthy apiKey || !optStrTruthy secretKey then
    .error "apiKey and/or secretKey are missing"
  else
    .ok { apiKey := apiKey.getD "", secretKey := secretKey.getD "" }

/-! ## JSON.stringify -/

/-- Hexadecimal digits (upper case, for percent-encoding). -/
def hexTable : List Char :=
  ['0', '1', '2', '3', '4', '5', '6', '7', '8', '9', 'A', 'B', 'C', 'D', 'E', 'F']

/-- The hex digit of `n % 16`. -/
def hexDigit (n : Nat) : Char := hexTable.getD (n % 16) '0'

/-- JSON string-character escaping as performed by `JSON.stringify`:
quote and backslash are backslash-escaped, the common control characters
get their short escapes, other control characters become `\u00XX`. -/
def jsonEscapeChar (c : Char) : List Char :=
  if c = '"' then ['\\', '"']
  else if c = '\\' then ['\\', '\\']
  else if c = '\n' then ['\\', 'n']
  else if c = '\r' then ['\\', 'r']
  else if c = '\t' then ['\\', 't']
  else if c.toNat < 0x20 then
    ['\\', 'u', '0', '0', hexDigit (c.toNat / 16), hexDigit c.toNat]
  else [c]

/-- A JSON string literal for `s`. -/
def jsonQuote (s : String) : String :=
  String.mk ('"' :: s.data.foldr (fun c acc => jsonEscapeChar c ++ acc) ['"'])

mutual

/-- `JSON.stringify`: `none` for `undefined` (where `JSON.stringify`
returns no string at all); `undefined` members of arrays serialize as
`null`, `undefined` members of objects are skipped. -/
def jsonStringify? : JSVal → Option String
  | .undefined => none
  | .null => some "null"
  | .bool b => some (if b then "true" else "false")
  | .num n => some (toString n)
  | .str s => some (jsonQuote s)
  | .arr xs => some ("[" ++ String.intercalate "," (jsonArrItems xs) ++ "]")
  | .obj fs => some ("\x7b" ++ String.intercalate "," (jsonObjItems fs) ++ "\x7d")

/-- Serialized items of a JSON array. -/
def jsonArrItems : List JSVal → List String
  | [] => []
  | v :: vs => ((jsonStringify? v).getD "null") :: jsonArrItems vs

/-- Serialized `"key":value` members of a JSON object, skipping fields
whose value is `undefined`. -/
def jsonObjItems : List (String × JSVal) → List String
  | [] => []
  | (k, v) :: fs =>
    match jsonStringify? v with
    | some s => (jsonQuote k ++ ":" ++ s) :: jsonObjItems fs
    | none => jsonObjItems fs

end

/-! ## querystring.stringify -/

/-- Characters `querystring.escape` leaves unescaped (`A–Z a–z 0–9 - _ . !
~ * ' ( )`). -/
def qsUnreserved (c : Char) : Bool :=
  c.isAlpha || c.isDigit || c = '-' || c = '_' || c = '.' || c = '!' ||
    c = '~' || c = '*' || c = Char.ofNat 39 || c = '(' || c = ')'

/-- UTF-8 encoding of one character (byte values). -/
def utf8Char (c : Char) : List Nat :=
  let n := c.toNat
  if n < 0x80 then [n]
  else if n < 0x800 then [0xC0 + n / 64, 0x80 + n % 64]
  else if n < 0x10000 then
    [0xE0 + n / 4096, 0x80 + (n / 64) % 64, 0x80 + n % 64]
  else
    [0xF0 + n / 262144, 0x80 + (n / 4096) % 64, 0x80 + (n / 64) % 64,
      0x80 + n % 64]

/-- UTF-8 bytes of a string (`Buffer.from(s)`). -/
def utf8Bytes (s : String) : List Nat :=
  s.data.foldr (fun c acc => utf8Char c ++ acc) []

/-- `querystring.escape` on one character: unreserved characters pass
through, everything else is percent-encoded byte by byte. -/
def qsEscapeChar (c : Char) : List Char :=
  if qsUnreserved c then [c]
  else (utf8Char c).foldr
    (fun b acc => '%' :: hexDigit (b / 16) :: hexDigit (b % 16) :: acc) []

/-- `querystring.escape` on a string. -/
def qsEscape (s : String) : String :=
  String.mk (s.data.foldr (fun c acc => qsEscapeChar c ++ acc) [])

/-- How `querystring.stringify` coerces a primitive value to text: strings
pass through, numbers and booleans print, everything else becomes the
empty string. -/
def qsPrimStr : JSVal → String
  | .str s => s
  | .num n => toString n
  | .bool b => if b then "true" else "false"
  | _ => ""

/-- The `key=value` components contributed by one object field; an array
value contributes one component per element. -/
def qsPairs (k : String) (v : JSVal) : List String :=
  match v with
  | .arr xs => xs.map (fun x => qsEscape k ++ "=" ++ qsEscape (qsPrimStr x))
  | _ => [qsEscape k ++ "=" ++ qsEscape (qsPrimStr v)]

/-- `querystring.stringify`: the object's `key=value` components joined
with `&`; non-objects stringify to `""`. -/
def qsStringify (v : JSVal) : String :=
  match v with
  | .obj fs =>
    String.intercalate "&"
      (fs.foldr (fun kv acc => qsPairs kv.1 kv.2 ++ acc) [])
  | _ => ""

/-! ## Base64 and base64url -/

/-- The base64 alphabet, in order. -/
def b64Table : List Char :=
  ['A', 'B', 'C', 'D', 'E', 'F', 'G', 'H', 'I', 'J', 'K', 'L', 'M',
   'N', 'O', 'P', 'Q', 'R', 'S', 'T', 'U', 'V', 'W', 'X', 'Y', 'Z',
   'a', 'b', 'c', 'd', 'e', 'f', 'g', 'h', 'i', 'j', 'k', 'l', 'm',
   'n', 'o', 'p', 'q', 'r', 's', 't', 'u', 'v', 'w', 'x', 'y', 'z',
   '0', '1', '2', '3', '4', '5', '6', '7', '8', '9', '+', '/']

/-- The base64 alphabet character with index `n % 64`. -/
def b64CharAt (n : Nat) : Char :=
  b64Table.get ⟨n % 64, Nat.mod_lt _ (by decide)⟩

/-- Base64 encoding of a byte list (`buf.toString('base64')`), including
`=` padding; bytes are processed in groups of three. -/
def b64encodeList : List Nat → List Char
  | [] => []
  | [b1] =>
    [b64CharAt (b1 / 4), b64CharAt (b1 % 4 * 16), '=', '=']
  | [b1, b2] =>
    [b64CharAt (b1 / 4), b64CharAt (b1 % 4 * 16 + b2 / 16),
     b64CharAt (b2 % 16 * 4), '=']
  | b1 :: b2 :: b3 :: rest =>
    b64CharAt (b1 / 4) :: b64CharAt (b1 % 4 * 16 + b2 / 16) ::
      b64CharAt (b2 % 16 * 4 + b3 / 64) :: b64CharAt (b3 % 64) ::
        b64encodeList rest

/-- `.replace(/\+/g, '-')` on one character. -/
def replPlus (c : Char) : Char := if c = '+' then '-' else c

/-- `.replace(/\//g, '_')` on one character. -/
def replSlash (c : Char) : Char := if c = '/' then '_' else c

/-- The chained
`.replace(/\+/g, '-').replace(/\//g, '_').replace(/=/g, '')` applied to a
base64 character list: the global replaces map every `+` and `/` and drop
every `=`. -/
def b64UrlOf (l : List Char) : List Char :=
  ((l.map replPlus).map replSlash).filter (fun c => c != '=')

/-- Base64url encoding of a byte list, as the SDK computes it. -/
def b64UrlChars (bs : List Nat) : List Char := b64UrlOf (b64encodeList bs)

/-- `Chilepay._base64UrlEncode(object)`:
`new Buffer(JSON.stringify(object)).toString('base64')` with `+` → `-`,
`/` → `_` and all `=` removed. -/
def base64UrlEncode (object : JSVal) : String :=
  String.mk (b64UrlChars (utf8Bytes ((jsonStringify? object).getD "")))


/-! ## `_jwtCreate` and `_request` -/

/-- `Object.assign(base, updates)` on ordered field lists: existing keys
keep their position and take the updated value, new keys are appended in
order. -/
def objAssign (base updates : List (String × JSVal)) :
    List (String × JSVal) :=
  base.map (fun kv =>
    match updates.lookup kv.1 with
    | some v => (kv.1, v)
    | none => kv) ++
  updates.filter (fun u => !(base.map Prod.fst).contains u.1)

/-- The claims object after
`Object.assign(payload, { iat: iat, exp: iat + expireIn })` in
`_jwtCreate`, with `iat = Date.now() / 1000` supplied as `now`. -/
def jwtClaims (payload : List (String × JSVal)) (expireIn now : Int) :
    List (String × JSVal) :=
  objAssign payload [("iat", .num now), ("exp", .num (now + expireIn))]

/-- `Chilepay._jwtCreate(payload, expireIn, secretKey)`: base64url-encodes
the fixed header and the claims, signs `header + "." + claims` with
HMAC-SHA256 (`hmac key message` giving the digest bytes), base64-encodes
the digest with the same `+`/`/`/`=` rewriting, and joins the three parts
with `.`. -/
def jwtCreate (payload : List (String × JSVal)) (expireIn : Int)
    (secretKey : String) (hmac : String → String → List Nat) (now : Int) :
    String :=
  let header : JSVal := .obj [("alg", .str "HS256"), ("typ", .str "JWT")]
  let tokenHeader := base64UrlEncode header
  let tokenPayload := base64UrlEncode (.obj (jwtClaims payload expireIn now))
  let signature :=
    String.mk (b64UrlChars (hmac secretKey (tokenHeader ++ "." ++ tokenPayload)))
  tokenHeader ++ "." ++ tokenPayload ++ "." ++ signature

/-- The ambient effects `_request` reads: the clock (`Date.now() / 1000`,
an integer tick; no claim depends on the fractional part) and the
HMAC-SHA256 primitive from `crypto` (key, message ↦ digest bytes). -/
structure Env where
  now : Int
  hmac : String → String → List Nat

/-- The token `_request` attaches: `_jwtCreate({ type: 'api' }, 60 * 3,
this.secretKey)`. -/
def requestToken (c : Chilepay) (env : Env) : String :=
  jwtCreate [("type", .str "api")] (60 * 3) c.secretKey env.hmac env.now

/-- The HTTPS request `_request` hands to `https.request`, plus the body
it writes: method, host, path (with the query string appended when
non-empty), the three headers, and the body. -/
structure RequestEnvelope where
  method : String
  hostname : String
  path : String
  contentType : String
  authorization : String
  xApiKey : String
  body : String

/-- `API_VERSION`. -/
def API_VERSION : String := "dev"

/-- `method.toUpperCase()`. -/
def toUpperJS (s : String) : String := String.mk (s.data.map Char.toUpper)

/-- The pure request-assembly half of `Chilepay._request(method, url,
params)` (everything up to `req.write(body); req.end()`): uppercases the
method, builds the JWT, defaults `params` to `{}`, serializes `params` as
a query string with empty body for `GET` and as the JSON body with no
query string otherwise, and fills in path and headers. -/
def buildRequest (c : Chilepay) (env : Env) (method url : String)
    (params : JSVal) : RequestEnvelope :=
  let method := toUpperJS method
  let params := jsOrEmptyObj params
  let queryString := if method = "GET" then qsStringify params else ""
  let body := if method = "GET" then "" else (jsonStringify? params).getD ""
  { method := method
    hostname := "api.chilepay.cl"
    path := "/" ++ API_VERSION ++ "/" ++ url ++
      (if queryString.isEmpty then "" else "?" ++ queryString)
    contentType := "application/json"
    authorization := "Bearer " ++ requestToken c env
    xApiKey := c.apiKey
    body := body }

/-- What a method call does synchronously: throw an exception, return an
already-rejected promise (no network activity), or issue one network
request. -/
inductive CallResult where
  | thrown (message : String)
  | rejected (message : String)
  | requested (req : RequestEnvelope)

/-- What the promise of `_request` settles to. -/
inductive RejectVal where
  | body (v : JSVal)
  | transportError (message : String)

/-- Promise settlement. -/
inductive Outcome where
  | resolvedWith (v : JSVal)
  | rejectedWith (e : RejectVal)

/-- The transport-level event the pending request observes: a response
(status code plus JSON-parsed body — the handler feeds the concatenated
chunks to `JSON.parse`) or a connection error. -/
inductive HttpEvent where
  | response (statusCode : Nat) (body : JSVal)
  | error (message : String)

/-- The response-settlement half of `Chilepay._request`: on a response,
reject with the parsed body when `statusCode < 200 || statusCode > 299`,
else resolve with it; on `req.on('error', …)`, reject with the transport
error. -/
def settleRequest : HttpEvent → Outcome
  | .response statusCode body =>
    if statusCode < 200 || statusCode > 299 then .rejectedWith (.body body)
    else .resolvedWith body
  | .error e => .rejectedWith (.transportError e)

/-! ## The public methods -/

/-- `Chilepay.prototype.get`. -/
def Chilepay.get (c : Chilepay) (env : Env) (url : String) (params : JSVal) :
    CallResult :=
  .requested (buildRequest c env "get" url params)

/-- `Chilepay.prototype.post`. -/
def Chilepay.post (c : Chilepay) (env : Env) (url : String) (params : JSVal) :
    CallResult :=
  .requested (buildRequest c env "post" url params)

/-- `Chilepay.prototype.put`. -/
def Chilepay.put (c : Chilepay) (env : Env) (url : String) (params : JSVal) :
    CallResult :=
  .requested (buildRequest c env "put" url params)

/-- `Chilepay.prototype.delete`. -/
def Chilepay.delete (c : Chilepay) (env : Env) (url : String)
    (params : JSVal) : CallResult :=
  .requested (buildRequest c env "delete" url params)

/-- `getFees(plan)`: `this.get('fees', { plan: plan || 'a' })`. -/
def Chilepay.getFees (c : Chilepay) (env : Env) (plan : JSVal) : CallResult :=
  c.get env "fees" (.obj [("plan", if truthy plan then plan else .str "a")])

/-- `initTransaction(provider, params)`: rejects without any request when
`typeof provider !== 'string'` or `typeof params !== 'object'`, else
`this.post('transactions/' + provider, params)`. -/
def Chilepay.initTransaction (c : Chilepay) (env : Env)
    (provider params : JSVal) : CallResult :=
  if typeofJS provider ≠ "string" then
    .rejected "provider is missing"
  else if typeofJS params ≠ "object" then
    .rejected "initTransactionInput object parameter missing"
  else
    c.post env ("transactions/" ++ strVal provider) params

/-- `getTransaction(transactionId)`:
`this.get('transactions/' + transactionId)` (no `params` argument). -/
def Chilepay.getTransaction (c : Chilepay) (env : Env)
    (transactionId : String) : CallResult :=
  c.get env ("transactions/" ++ transactionId) .undefined

/-- `initAuth(params)`: the body is `return this.post('auth',
initAuthInput);`, but `initAuthInput` is bound nowhere in the module (the
parameter is named `params`), so in strict mode the method throws
`ReferenceError: initAuthInput is not defined` before `post` can run — no
request is issued. -/
def Chilepay.initAuth (c : Chilepay) (env : Env) (params : JSVal) :
    CallResult :=
  .thrown "initAuthInput is not defined"

/-- `getAccount(accountId)`: `this.get('accounts/' + accountId)`. -/
def Chilepay.getAccount (c : Chilepay) (env : Env) (accountId : String) :
    CallResult :=
  c.get env ("accounts/" ++ accountId) .undefined

/-! ## `makeNotificationResponse` (modelled from the spec) -/

/-- Modelled from the spec: `makeNotificationResponse(transactionOrSeed)`
is specified (spec §4.1 operations, §8 testable properties) but no
implementation of it appears in the source under `src/`.  Following the
spec's words: it accepts either a raw seed string or an object exposing a
`seed` field; computes a keyed one-way hash of `seed + secretKey` (the
hash abstracted as `hash : String → List Nat`, message ↦ digest bytes);
base64-encodes the digest; and strips the `=` padding characters. -/
def makeNotificationResponse (hash : String → List Nat) (c : Chilepay)
    (transactionOrSeed : JSVal) : String :=
  let seed : String :=
    match transactionOrSeed with
    | .str s => s
    | .obj fs =>
      match fs.lookup "seed" with
      | some v => strVal v
      | none => ""
    | _ => ""
  String.mk ((b64encodeList (hash (seed ++ c.secretKey))).filter
    (fun ch => ch != '='))

/-! ## Call sequences (for credential immutability) -/

/-- One public-interface call, with its arguments. -/
inductive Op where
  | initTransaction (provider params : JSVal)
  | getTransaction (transactionId : String)
  | initAuth (params : JSVal)
  | getAccount (accountId : String)
  | getFees (plan : JSVal)
  | get (url : String) (params : JSVal)
  | post (url : String) (params : JSVal)
  | put (url : String) (params : JSVal)
  | delete (url : String) (params : JSVal)

/-- Run one call against the client, state-passing style: the returned
client is the state after the call (the source assigns to `this.apiKey` /
`this.secretKey` only in the constructor, so every method leaves the state
as it found it). -/
def runOp (c : Chilepay) (env : Env) : Op → Chilepay × CallResult
  | .initTransaction provider params => (c, c.initTransaction env provider params)
  | .getTransaction transactionId => (c, c.getTransaction env transactionId)
  | .initAuth params => (c, c.initAuth env params)
  | .getAccount accountId => (c, c.getAccount env accountId)
  | .getFees plan => (c, c.getFees env plan)
  | .get url params => (c, c.get env url params)
  | .post url params => (c, c.post env url params)
  | .put url params => (c, c.put env url params)
  | .delete url params => (c, c.delete env url params)

/-- The client state after a sequence of calls. -/
def runOps (c : Chilepay) (env : Env) : List Op → Chilepay
  | [] => c
  | op :: ops => runOps (runOp c env op).1 env ops

/-! ## Sanity checks on the embedded encoders -/

theorem sanity_jsonStringify_empty_obj : jsonStringify? (.obj []) = some "{}" :=
  rfl

theorem sanity_jsonStringify_fields :
    jsonStringify? (.obj [("a", .num 3), ("b", .str "x")])
      = some ("\x7b" ++ jsonQuote "a" ++ ":3," ++ jsonQuote "b" ++ ":"
          ++ jsonQuote "x" ++ "\x7d") := rfl

theorem sanity_qsStringify_plan :
    qsStringify (.obj [("plan", .str "a")]) = "plan=a" := rfl

theorem sanity_qsStringify_escapes :
    qsStringify (.obj [("a", .num 3), ("b", .str "x y")]) = "a=3&b=x%20y" :=
  rfl

theorem sanity_b64_three : String.mk (b64encodeList (utf8Bytes "Man")) = "TWFu" :=
  rfl

theorem sanity_b64_two : String.mk (b64encodeList (utf8Bytes "Ma")) = "TWE=" :=
  rfl

theorem sanity_b64_one : String.mk (b64encodeList (utf8Bytes "M")) = "TQ==" :=
  rfl

theorem sanity_base64UrlEncode_jwt_header :
    base64UrlEncode (.obj [("alg", .str "HS256"), ("typ", .str "JWT")])
      = "eyJhbGciOiJIUzI1NiIsInR5cCI6IkpXVCJ9" := rfl

/-! ## Helper lemmas: base64url alphabet -/

theorem b64CharAt_mem (n : Nat) : b64CharAt n ∈ b64Table :=
  List.get_mem _ _ _

theorem mem_b64encodeList (bs : List Nat) :
    ∀ ch ∈ b64encodeList bs, ch ∈ b64Table ∨ ch = '=' := by
  induction bs using b64encodeList.induct with
  | case1 =>
    intro ch h
    exact absurd h (List.not_mem_nil ch)
  | case2 b1 =>
    intro ch h
    simp only [b64encodeList, List.mem_cons, List.not_mem_nil, or_false] at h
    rcases h with rfl | rfl | rfl | rfl
    · exact Or.inl (b64CharAt_mem _)
    · exact Or.inl (b64CharAt_mem _)
    · exact Or.inr rfl
    · exact Or.inr rfl
  | case3 b1 b2 =>
    intro ch h
    simp only [b64encodeList, List.mem_cons, List.not_mem_nil, or_false] at h
    rcases h with rfl | rfl | rfl | rfl
    · exact Or.inl (b64CharAt_mem _)
    · exact Or.inl (b64CharAt_mem _)
    · exact Or.inl (b64CharAt_mem _)
    · exact Or.inr rfl
  | case4 b1 b2 b3 rest ih =>
    intro ch h
    simp only [b64encodeList, List.mem_cons] at h
    rcases h with rfl | rfl | rfl | rfl | h
    · exact Or.inl (b64CharAt_mem _)
    · exact Or.inl (b64CharAt_mem _)
    · exact Or.inl (b64CharAt_mem _)
    · exact Or.inl (b64CharAt_mem _)
    · exact ih ch h

theorem replPlus_ne_plus (c : Char) : replPlus c ≠ '+' := by
  unfold replPlus
  split
  · decide
  · assumption

theorem replSlash_ne_slash (c : Char) : replSlash c ≠ '/' := by
  unfold replSlash
  split
  · decide
  · assumption

theorem replSlash_ne_plus (c : Char) (h : c ≠ '+') : replSlash c ≠ '+' := by
  unfold replSlash
  split
  · decide
  · exact h

/-- A character list fit to be one segment of the token: no separator, and
valid base64url (no `+`, `/`, `=`). -/
def b64UrlSegmentOK (l : List Char) : Prop :=
  ∀ c ∈ l, c ≠ '.' ∧ c ≠ '+' ∧ c ≠ '/' ∧ c ≠ '='

theorem b64UrlOf_segmentOK (l : List Char)
    (hl : ∀ c ∈ l, c ∈ b64Table ∨ c = '=') : b64UrlSegmentOK (b64UrlOf l) := by
  intro d hd
  unfold b64UrlOf at hd
  rw [List.mem_filter] at hd
  obtain ⟨hmem, hne⟩ := hd
  rw [List.mem_map] at hmem
  obtain ⟨c1, hc1, rfl⟩ := hmem
  rw [List.mem_map] at hc1
  obtain ⟨c0, hc0, rfl⟩ := hc1
  have hne' : replSlash (replPlus c0) ≠ '=' := by simpa using hne
  refine ⟨?_, replSlash_ne_plus _ (replPlus_ne_plus c0), replSlash_ne_slash _,
    hne'⟩
  rcases hl c0 hc0 with htab | rfl
  · have hdot : ∀ c ∈ b64Table, replSlash (replPlus c) ≠ '.' := by decide
    exact hdot c0 htab
  · exact absurd rfl hne'

theorem b64UrlChars_segmentOK (bs : List Nat) :
    b64UrlSegmentOK (b64UrlChars bs) :=
  b64UrlOf_segmentOK _ (mem_b64encodeList bs)

theorem base64UrlEncode_segmentOK (v : JSVal) :
    b64UrlSegmentOK (base64UrlEncode v).data :=
  b64UrlChars_segmentOK _

theorem jwtCreate_decomp (payload : List (String × JSVal)) (expireIn : Int)
    (secretKey : String) (hmac : String → String → List Nat) (now : Int) :
    ∃ h p s : List Char,
      jwtCreate payload expireIn secretKey hmac now
          = String.mk (h ++ '.' :: p ++ '.' :: s)
        ∧ b64UrlSegmentOK h ∧ b64UrlSegmentOK p ∧ b64UrlSegmentOK s := by
  refine ⟨(base64UrlEncode (.obj [("alg", .str "HS256"), ("typ", .str "JWT")])).data,
    (base64UrlEncode (.obj (jwtClaims payload expireIn now))).data,
    b64UrlChars (hmac secretKey
      (base64UrlEncode (.obj [("alg", .str "HS256"), ("typ", .str "JWT")]) ++ "." ++
        base64UrlEncode (.obj (jwtClaims payload expireIn now)))), ?_,
    base64UrlEncode_segmentOK _, base64UrlEncode_segmentOK _,
    b64UrlChars_segmentOK _⟩
  apply String.ext
  simp [jwtCreate, String.data_append]

/-! ## Demonstration constants (used by concrete witnesses) -/

/-- A concrete client. -/
def cDemo : Chilepay := { apiKey := "pk", secretKey := "sk" }

/-- A concrete environment: fixed clock, constant all-zero digest. -/
def envDemo : Env := { now := 1000, hmac := fun _ _ => List.replicate 32 0 }

/-- A concrete digest function for witnesses. -/
def hashDemo : String → List Nat := fun _ => [0, 77, 251]

/-! ## Claims -/

/-- C1: the spec says `initAuth(parameters)` issues a create-authorization
POST to `'auth'` carrying the parameters as the JSON body.  The code
instead evaluates the unbound identifier `initAuthInput`
(`return this.post('auth', initAuthInput)`; the parameter is named
`params`), so every call throws a `ReferenceError` synchronously and no
request is ever issued. -/
theorem c1_initAuth_throws_reference_error (c : Chilepay) (env : Env)
    (params : JSVal) :
    c.initAuth env params = .thrown "initAuthInput is not defined"
      ∧ ∀ req, c.initAuth env params ≠ .requested req :=
  ⟨rfl, fun _ h => by cases h⟩

/-- C2 (modelled from the spec, see `makeNotificationResponse`):
`makeNotificationResponse` is deterministic and pure — repeated
applications to the same seed and secret key give the same string — its
output contains no `=` character, and the bare-seed-string and
object-with-`seed`-field forms agree on the same underlying seed. -/
theorem c2_makeNotificationResponse_pure_no_padding
    (hash : String → List Nat) (c : Chilepay) (v : JSVal) (s : String)
    (fs : List (String × JSVal)) (hseed : fs.lookup "seed" = some (.str s)) :
    makeNotificationResponse hash c v = makeNotificationResponse hash c v
      ∧ (∀ ch ∈ (makeNotificationResponse hash c v).data, ch ≠ '=')
      ∧ makeNotificationResponse hash c (.str s)
          = makeNotificationResponse hash c (.obj fs) := by
  refine ⟨rfl, ?_, ?_⟩
  · intro ch hch
    have := (List.mem_filter.mp hch).2
    simpa using this
  · simp [makeNotificationResponse, hseed, strVal]

/-- C2 witness: the properties at a concrete digest, client, seed and
transaction object. -/
theorem c2_witness :
    makeNotificationResponse hashDemo cDemo (.str "abc")
        = makeNotificationResponse hashDemo cDemo (.obj [("seed", .str "abc")])
      ∧ ∀ ch ∈ (makeNotificationResponse hashDemo cDemo (.str "x")).data,
          ch ≠ '=' := by
  have h := c2_makeNotificationResponse_pure_no_padding hashDemo cDemo
    (.str "x") "abc" [("seed", .str "abc")] rfl
  exact ⟨h.2.2, h.2.1⟩

/-- C3: construction fails (synchronously, as a pure function — no request
value can be produced) if and only if the public identifier or the secret
key is absent or empty, and for every pair of non-empty credentials it
succeeds, storing exactly the given pair. -/
theorem c3_constructor_validates_credentials
    (apiKey secretKey : Option String) :
    ((∃ e, chilepayNew apiKey secretKey = .error e)
        ↔ (apiKey = none ∨ apiKey = some "" ∨ secretKey = none
            ∨ secretKey = some ""))
      ∧ (∀ x y : String, x ≠ "" → y ≠ "" →
          chilepayNew (some x) (some y) = .ok { apiKey := x, secretKey := y }) := by
  constructor
  · rcases apiKey with _ | a <;> rcases secretKey with _ | b
    · simp [chilepayNew, optStrTruthy]
    · simp [chilepayNew, optStrTruthy]
    · simp [chilepayNew, optStrTruthy]
    · by_cases ha : a = "" <;> by_cases hb : b = "" <;>
        simp [chilepayNew, optStrTruthy, String.isEmpty_iff, ha, hb]
  · intro x y hx hy
    simp [chilepayNew, optStrTruthy, String.isEmpty_iff, hx, hy]

/-- C3 witness: a concrete non-empty pair succeeds with the given fields; a
concrete absent key fails. -/
theorem c3_witness :
    chilepayNew (some "pk") (some "sk") = .ok { apiKey := "pk", secretKey := "sk" }
      ∧ ∃ e, chilepayNew none (some "sk") = .error e :=
  ⟨(c3_constructor_validates_credentials (some "pk") (some "sk")).2 "pk" "sk"
      (by decide) (by decide),
    (c3_constructor_validates_credentials none (some "sk")).1.mpr (Or.inl rfl)⟩

/-- Whether a value is a structured object (an actual object — `null` is
not one, although JavaScript's `typeof null` is `'object'`). -/
def isStructuredObject : JSVal → Bool
  | .obj _ => true
  | _ => false

/-- C4 counterexample: `null` is not a structured object, yet
`initTransaction('webpay', null)` passes the `typeof params !== 'object'`
check (because `typeof null === 'object'`) and issues a network request
instead of the failed outcome the claim requires. -/
theorem c4_counterexample_null_params :
    isStructuredObject .null = false
      ∧ cDemo.initTransaction envDemo (.str "webpay") .null
          = .requested (buildRequest cDemo envDemo "post" "transactions/webpay"
              .null) :=
  ⟨rfl, rfl⟩

/-- C4 as amended: `initTransaction(provider, parameters)` rejects with a
validation error and no request when the provider is not a string; rejects
with a validation error and no request when the parameters argument has
JavaScript `typeof` other than `'object'` (so objects, arrays and `null`
all pass); and otherwise issues a create-transaction POST to
`'transactions/' + provider`. -/
theorem c4_initTransaction_validation (c : Chilepay) (env : Env)
    (provider params : JSVal) :
    (typeofJS provider ≠ "string" →
        c.initTransaction env provider params = .rejected "provider is missing")
      ∧ (typeofJS provider = "string" → typeofJS params ≠ "object" →
          c.initTransaction env provider params
            = .rejected "initTransactionInput object parameter missing")
      ∧ (typeofJS provider = "string" → typeofJS params = "object" →
          c.initTransaction env provider params
            = .requested (buildRequest c env "post"
                ("transactions/" ++ strVal provider) params)) := by
  refine ⟨fun h => ?_, fun h1 h2 => ?_, fun h1 h2 => ?_⟩
  · simp [Chilepay.initTransaction, h]
  · simp [Chilepay.initTransaction, h1, h2]
  · simp [Chilepay.initTransaction, Chilepay.post, h1, h2]

/-- C4 witness: the spec's own example — a numeric provider is rejected
with the validation error and no request; a string provider with an object
parameter issues the POST. -/
theorem c4_witness :
    cDemo.initTransaction envDemo (.num 123) (.obj [])
        = .rejected "provider is missing"
      ∧ cDemo.initTransaction envDemo (.str "webpay")
          (.obj [("subject", .str "test")])
          = .requested (buildRequest cDemo envDemo "post" "transactions/webpay"
              (.obj [("subject", .str "test")])) := by
  constructor
  · exact (c4_initTransaction_validation cDemo envDemo (.num 123) (.obj [])).1
      (by decide)
  · have h := (c4_initTransaction_validation cDemo envDemo (.str "webpay")
      (.obj [("subject", .str "test")])).2.2 rfl rfl
    simpa [strVal] using h

/-- C5: a response whose status code lies in 200–299 resolves the call
with the JSON-parsed body; any status outside that range rejects the call
with the parsed body passed through verbatim; a transport-level error
rejects the call with the underlying error. -/
theorem c5_settlement_by_status (status : Nat) (body : JSVal) (e : String) :
    (200 ≤ status → status ≤ 299 →
        settleRequest (.response status body) = .resolvedWith body)
      ∧ (status < 200 ∨ 299 < status →
          settleRequest (.response status body) = .rejectedWith (.body body))
      ∧ settleRequest (.error e) = .rejectedWith (.transportError e) := by
  refine ⟨fun h1 h2 => ?_, fun h => ?_, rfl⟩
  · have hcond : (decide (status < 200) || decide (status > 299)) = false := by
      simp only [Bool.or_eq_false_iff, decide_eq_false_iff_not, Nat.not_lt]
      omega
    simp [settleRequest, hcond]
  · have hcond : (decide (status < 200) || decide (status > 299)) = true := by
      simp only [Bool.or_eq_true, decide_eq_true_eq]
      omega
    simp [settleRequest, hcond]

/-- C5 witness: the spec's example — status 402 with body
`{"error":"insufficient_funds"}` rejects with exactly that object; status
201 resolves; a connection error rejects with the transport error. -/
theorem c5_witness :
    settleRequest (.response 402 (.obj [("error", .str "insufficient_funds")]))
        = .rejectedWith (.body (.obj [("error", .str "insufficient_funds")]))
      ∧ settleRequest (.response 201 (.obj [("transactionId", .str "T1")]))
          = .resolvedWith (.obj [("transactionId", .str "T1")])
      ∧ settleRequest (.error "ECONNREFUSED")
          = .rejectedWith (.transportError "ECONNREFUSED") :=
  ⟨(c5_settlement_by_status 402 (.obj [("error", .str "insufficient_funds")])
      "").2.1 (Or.inr (by decide)),
    (c5_settlement_by_status 201 (.obj [("transactionId", .str "T1")]) "").1
      (by decide) (by decide),
    (c5_settlement_by_status 0 .null "ECONNREFUSED").2.2⟩

/-- C6: a GET call serializes its parameters as a query string appended to
the path (appended after `?` exactly when non-empty) and sends an empty
body; a POST call serializes its parameters as the JSON request body and
appends no query string to the path. -/
theorem c6_get_query_post_body (c : Chilepay) (env : Env) (url : String)
    (params : JSVal) :
    (∃ r, c.get env url params = .requested r ∧ r.body = ""
        ∧ r.path = "/" ++ API_VERSION ++ "/" ++ url ++
            (if (qsStringify (jsOrEmptyObj params)).isEmpty then ""
             else "?" ++ qsStringify (jsOrEmptyObj params)))
      ∧ (∃ r, c.post env url params = .requested r
          ∧ r.body = (jsonStringify? (jsOrEmptyObj params)).getD ""
          ∧ r.path = "/" ++ API_VERSION ++ "/" ++ url) := by
  constructor
  · exact ⟨_, rfl, rfl, rfl⟩
  · refine ⟨_, rfl, rfl, ?_⟩
    have hne : ¬(toUpperJS "post" = "GET") := by decide
    simp [Chilepay.post, buildRequest, hne, String.isEmpty_iff, String.append_empty]

/-- C7: the signed-request token attached to every outgoing request is
three segments joined by `.` (exactly three: no segment contains a `.`),
and each segment is valid base64url — it contains no `+`, no `/` and no
`=` character (in particular no trailing padding). -/
theorem c7_token_three_base64url_segments (c : Chilepay) (env : Env)
    (method url : String) (params : JSVal) :
    ∃ h p s : List Char,
      (buildRequest c env method url params).authorization
          = "Bearer " ++ String.mk (h ++ '.' :: p ++ '.' :: s)
        ∧ b64UrlSegmentOK h ∧ b64UrlSegmentOK p ∧ b64UrlSegmentOK s := by
  obtain ⟨h, p, s, heq, hh, hp, hs⟩ :=
    jwtCreate_decomp [("type", .str "api")] (60 * 3) c.secretKey env.hmac env.now
  exact ⟨h, p, s, by rw [show (buildRequest c env method url params).authorization
    = "Bearer " ++ requestToken c env from rfl, requestToken, heq], hh, hp, hs⟩

/-- C8: the claims payload of the token built for every outgoing request
(`requestToken`, i.e. `_jwtCreate({ type: 'api' }, 60 * 3, secretKey)`)
carries an issued-at claim `iat` equal to the clock value and an expiry
claim `exp` with `exp = iat + 180`, so the expiry is strictly greater than
the issued-at time by exactly 180 seconds. -/
theorem c8_expiry_is_issued_at_plus_180 (c : Chilepay) (env : Env) :
    requestToken c env
        = jwtCreate [("type", .str "api")] (60 * 3) c.secretKey env.hmac env.now
      ∧ ∃ iat exp : Int,
          (jwtClaims [("type", .str "api")] (60 * 3) env.now).lookup "iat"
              = some (.num iat)
            ∧ (jwtClaims [("type", .str "api")] (60 * 3) env.now).lookup "exp"
              = some (.num exp)
            ∧ exp = iat + 180 ∧ iat < exp := by
  refine ⟨rfl, env.now, env.now + 180, ?_, ?_, rfl, by omega⟩
  · rfl
  · rfl

/-- C9: no operation of the client mutates the stored credentials — after
any sequence of `initTransaction`, `getTransaction`, `initAuth`,
`getAccount`, `getFees` or raw `get`/`post`/`put`/`delete` calls, the
client's `apiKey` and `secretKey` still equal the values given to the
constructor. -/
theorem c9_credentials_immutable (apiKey secretKey : String) (c : Chilepay)
    (env : Env) (ops : List Op)
    (h : chilepayNew (some apiKey) (some secretKey) = .ok c) :
    (runOps c env ops).apiKey = apiKey
      ∧ (runOps c env ops).secretKey = secretKey := by
  have hops : ∀ c0 : Chilepay, runOps c0 env ops = c0 := by
    intro c0
    induction ops generalizing c0 with
    | nil => rfl
    | cons op ops ih =>
      have hstep : (runOp c0 env op).1 = c0 := by cases op <;> rfl
      rw [runOps, hstep, ih]
  have hc : c = { apiKey := apiKey, secretKey := secretKey } := by
    unfold chilepayNew at h
    split at h
    · cases h
    · exact (Except.ok.injEq _ _).mp h.symm ▸ rfl
  rw [hops, hc]
  exact ⟨rfl, rfl⟩

/-- C9 witness: a concrete client survives a concrete call sequence with
its credentials intact. -/
theorem c9_witness :
    (runOps cDemo envDemo
        [.initTransaction (.str "webpay") (.obj []), .getTransaction "t1",
          .initAuth (.obj []), .getFees .undefined, .getAccount "a1",
          .get "fees" .undefined, .post "auth" (.obj []), .put "x" .null,
          .delete "y" .null]).apiKey = "pk"
      ∧ (runOps cDemo envDemo
          [.initTransaction (.str "webpay") (.obj []), .getTransaction "t1",
            .initAuth (.obj []), .getFees .undefined, .getAccount "a1",
            .get "fees" .undefined, .post "auth" (.obj []), .put "x" .null,
            .delete "y" .null]).secretKey = "sk" :=
  c9_credentials_immutable "pk" "sk" cDemo envDemo _ rfl

/-- C10: for every string provider, `initTransaction(provider, null)`
passes both argument checks (`typeof null` is `'object'`), issues the
provider-scoped POST, and — because `_request` replaces the falsy `params`
with `{}` — sends the JSON body `"{}"`. -/
theorem c10_null_params_sends_empty_object (c : Chilepay) (env : Env)
    (provider : String) :
    c.initTransaction env (.str provider) .null
        = .requested (buildRequest c env "post" ("transactions/" ++ provider)
            .null)
      ∧ (buildRequest c env "post" ("transactions/" ++ provider) .null).body
        = "{}" :=
  ⟨rfl, rfl⟩
